import Mathlib

/-!
# Soklin wallet-monitoring backend: a shallow embedding

This file embeds, in Lean 4, the parts of the Soklin backend that the
verified claims are about:

* address validation and EIP-55 checksumming (`Validators.isValidEthereumAddress`
  in `backend/src/utils/validators.ts`, which delegates to `ethers.getAddress`;
  the Keccak-256 permutation is implemented here so that checksums can be
  computed inside proofs),
* the WebSocket service (`websocketService.ts`): per-connection subscription
  sets, rate limiting, and broadcast routing,
* the scoring service (`scoringService.ts`) in its model-not-loaded
  configuration, together with the feature extractor (`featureProcessor.ts`);
  JavaScript numbers are modelled as rationals, with the transcendental
  functions (`Math.log`, `Math.log10`, `Math.log2`) passed in as an explicit
  parameter record, since the verified properties do not depend on their
  values,
* the monitor coordinator (`walletMonitorService.ts`): event buffering,
  the flagging decision, and the monitor-map state machine,
* the flag-registry client (`contractService.ts`): `flagWallet` with its
  validation, exception handling and structured results.

Effectful JavaScript code is embedded as explicit state passing; `try/catch`
blocks become total functions over an environment value describing the
outcome of the external call that can throw.
-/

namespace Soklin

/-! ## Keccak-256 (needed by `ethers.getAddress` / EIP-55 checksums)

64-bit lanes are `Nat`s kept below `2 ^ 64`; every operation that could
overflow reduces mod `2 ^ 64`. -/

/-- Rotate a 64-bit lane left by `n` (0 ≤ n < 64). -/
def rotl64 (x n : Nat) : Nat :=
  (((x <<< n) % (2 ^ 64)) ||| (x >>> (64 - n)))

/-- Lane lookup in a flat 5×5 state (index `x + 5*y`), defaulting to 0. -/
def gl (s : List Nat) (i : Nat) : Nat := s.getD i 0

/-- Keccak round constants (ι), one per round. -/
def keccakRC : List Nat :=
  [0x1,
   0x8082,
   0x800000000000808a,
   0x8000000080008000,
   0x808b,
   0x80000001,
   0x8000000080008081,
   0x8000000000008009,
   0x8a,
   0x88,
   0x80008009,
   0x8000000a,
   0x8000808b,
   0x800000000000008b,
   0x8000000000008089,
   0x8000000000008003,
   0x8000000000008002,
   0x8000000000000080,
   0x800a,
   0x800000008000000a,
   0x8000000080008081,
   0x8000000000008080,
   0x80000001,
   0x8000000080008008]

/-- Keccak ρ rotation offsets `r[x, y]`, stored row-by-row in `x`: the offset
of lane `(x, y)` sits at flat index `y + 5 * x`. -/
def keccakRot : List Nat :=
  [0, 36, 3, 41, 18,
   1, 44, 10, 45, 2,
   62, 6, 43, 15, 61,
   28, 55, 25, 21, 56,
   27, 20, 39, 8, 14]

/-- θ step. -/
def keccakTheta (A : List Nat) : List Nat :=
  let C := (List.range 5).map (fun x =>
    gl A x ^^^ gl A (x + 5) ^^^ gl A (x + 10) ^^^ gl A (x + 15) ^^^ gl A (x + 20))
  let D := (List.range 5).map (fun x =>
    gl C ((x + 4) % 5) ^^^ rotl64 (gl C ((x + 1) % 5)) 1)
  (List.range 25).map (fun i => gl A i ^^^ gl D (i % 5))

/-- ρ and π steps: `B[y, 2x+3y] = rot(A[x, y], r[x, y])`, written from the
target index: for target `(X, Y)` the source is `x = 3*(Y + 2*X) % 5`, `y = X`. -/
def keccakRhoPi (A : List Nat) : List Nat :=
  (List.range 25).map (fun j =>
    let X := j % 5
    let Y := j / 5
    let x := (3 * (Y + 2 * X)) % 5
    rotl64 (gl A (x + 5 * X)) (gl keccakRot (X + 5 * x)))

/-- χ step: `A[x,y] = B[x,y] xor ((not B[x+1,y]) and B[x+2,y])`. -/
def keccakChi (B : List Nat) : List Nat :=
  (List.range 25).map (fun j =>
    let x := j % 5
    let y := j / 5
    gl B j ^^^ (((gl B (((x + 1) % 5) + 5 * y)) ^^^ (2 ^ 64 - 1)) &&& gl B (((x + 2) % 5) + 5 * y)))

/-- ι step. -/
def keccakIota (rc : Nat) (A : List Nat) : List Nat :=
  match A with
  | [] => []
  | a :: rest => (a ^^^ rc) :: rest

/-- One Keccak-f[1600] round. -/
def keccakRound (A : List Nat) (rc : Nat) : List Nat :=
  keccakIota rc (keccakChi (keccakRhoPi (keccakTheta A)))

/-- The full Keccak-f[1600] permutation (24 rounds). -/
def keccakF (A : List Nat) : List Nat :=
  keccakRC.foldl keccakRound A

/-- Little-endian byte list to 64-bit lane. -/
def bytesToLane (bs : List Nat) : Nat :=
  bs.foldr (fun b acc => b + 256 * acc) 0

/-- Keccak-256 of a message of at most 134 bytes (a single 136-byte rate
block after `pad10*1` with the original 0x01 Keccak domain byte, as used by
Ethereum).  The callers in this file hash 40-byte ASCII strings. -/
def keccak256Bytes (msg : List Nat) : List Nat :=
  let padded := msg ++ [0x01] ++ List.replicate (134 - msg.length) 0 ++ [0x80]
  let lanes := (List.range 17).map (fun i => bytesToLane ((padded.drop (8 * i)).take 8))
  let st0 := (List.range 25).map (fun i => if i < 17 then gl lanes i else 0)
  let st1 := keccakF st0
  (List.range 32).map (fun i => ((gl st1 (i / 8)) >>> (8 * (i % 8))) % 256)

set_option maxRecDepth 1000000 in
/-- Known-answer test: `keccak256("") =
c5d2460186f7233c927e7db2dcc703c0e500b653ca82273b7bfad8045d85a470`. -/
theorem keccak256_empty_kat :
    keccak256Bytes [] =
      [0xc5, 0xd2, 0x46, 0x01, 0x86, 0xf7, 0x23, 0x3c,
       0x92, 0x7e, 0x7d, 0xb2, 0xdc, 0xc7, 0x03, 0xc0,
       0xe5, 0x00, 0xb6, 0x53, 0xca, 0x82, 0x27, 0x3b,
       0x7b, 0xfa, 0xd8, 0x04, 0x5d, 0x85, 0xa4, 0x70] := by
  with_unfolding_all decide

set_option maxRecDepth 1000000 in
/-- Known-answer test: `keccak256("abc") =
4e03657aea45a94fc7d47ba826c8d667c0d1e6e33a64a036ec44f58fa12d6c45`. -/
theorem keccak256_abc_kat :
    keccak256Bytes [0x61, 0x62, 0x63] =
      [0x4e, 0x03, 0x65, 0x7a, 0xea, 0x45, 0xa9, 0x4f,
       0xc7, 0xd4, 0x7b, 0xa8, 0x26, 0xc8, 0xd6, 0x67,
       0xc0, 0xd1, 0xe6, 0xe3, 0x3a, 0x64, 0xa0, 0x36,
       0xec, 0x44, 0xf5, 0x8f, 0xa1, 0x2d, 0x6c, 0x45] := by
  with_unfolding_all decide

/-! ## `ethers.getAddress` and `Validators.isValidEthereumAddress`

`validators.ts` validates an address with the regular expression
`^0x[a-fA-F0-9]{40}$` and then calls `ethers.getAddress`, returning the
checksummed address as the `normalized` field.  `ethers.getAddress` accepts a
hex address that is either free of uppercase hex letters or exactly equal to
its EIP-55 checksummed form, and returns the checksummed form. -/

/-- `String.prototype.toLowerCase()` (also `String.toLower` in Lean, written
out over the character list so that it evaluates inside the kernel). -/
def toLowerStr (s : String) : String :=
  String.mk (s.data.map Char.toLower)

/-- Is `c` a hex digit (`[0-9a-fA-F]`)? -/
def isHexDigit (c : Char) : Bool :=
  (('0' ≤ c && c ≤ '9') || ('a' ≤ c && c ≤ 'f') || ('A' ≤ c && c ≤ 'F'))

/-- EIP-55: uppercase the `i`-th hex character of the lowercase 40-char body
iff the `i`-th nibble of `keccak256(body)` is at least 8. -/
def checksumBody (lowerBody : List Char) : List Char :=
  let hash := keccak256Bytes (lowerBody.map Char.toNat)
  lowerBody.enum.map (fun p =>
    let nib := ((gl hash (p.1 / 2)) >>> (if p.1 % 2 = 0 then 4 else 0)) % 16
    if 8 ≤ nib then p.2.toUpper else p.2)

/-- The regular expression `^0x[a-fA-F0-9]{40}$` from
`Validators.isValidEthereumAddress`. -/
def addrRegex (s : String) : Bool :=
  s.data.length = 42 && s.data.take 2 = ['0', 'x'] && (s.data.drop 2).all isHexDigit

/-- `ethers.getAddress`: `none` models a thrown `invalid address` /
`bad address checksum` error; `some` returns the EIP-55 checksummed form. -/
def ethersGetAddress (s : String) : Option String :=
  if addrRegex s then
    let body := s.data.drop 2
    let lower := body.map Char.toLower
    let chk := checksumBody lower
    if body.any (fun c => 'A' ≤ c && c ≤ 'F') && body ≠ chk then none
    else some (String.mk ('0' :: 'x' :: chk))
  else none

/-- `Validators.isValidEthereumAddress`: `some normalized` iff the input is a
well-formed address (regex passes and `ethers.getAddress` does not throw);
`normalized` is the checksummed form that the source stores. -/
def isValidEthereumAddress (address : String) : Option String :=
  if address = "" then none
  else if addrRegex address then ethersGetAddress address
  else none

set_option maxRecDepth 1000000 in
/-- Sanity anchors from EIP-55's own test vectors: checksumming two
all-lowercase addresses reproduces their documented mixed-case forms. -/
theorem eip55_vectors :
    ethersGetAddress "0x5aaeb6053f3e94c9b9a09f33669435e7ef1beaed"
        = some "0x5aAeb6053F3E94C9b9A09f33669435E7Ef1BeAed"
    ∧ ethersGetAddress "0xfb6916095ca1df60bb79ce92ce3ea74c37c5d359"
        = some "0xfB6916095ca1df60bB79Ce92cE3Ea74c37c5d359" := by
  with_unfolding_all decide

/-- The error list accumulated by `Validators.isValidEthereumAddress`. -/
def addrErrors (address : String) : List String :=
  if address = "" then ["Address is required"]
  else
    let fmtErrs := if addrRegex address then [] else ["Invalid Ethereum address format"]
    match ethersGetAddress address with
    | some _ => fmtErrs
    | none => fmtErrs ++ ["Invalid address checksum"]

/-! ## WebSocket service (`websocketService.ts`)

One connection's state, the per-connection rate limiter, `handleSubscribe`,
and the routing predicate shared by `broadcastScoreUpdate`,
`broadcastToWalletSubscribers` and `getWalletSubscriberCount`. -/

/-- Entry of `messageCounts`: `{ count, resetTime }`. -/
structure RateInfo where
  count : Nat
  resetTime : Nat
deriving Repr, DecidableEq

/-- `WebSocketConnection` (the transport handle is not modelled; a JS `Set`
is a duplicate-free list in insertion order). -/
structure Conn where
  id : String
  subscribedWallets : List String
  connectedAt : Nat
  lastActivity : Nat
  sessionId : Option String
deriving Repr, DecidableEq

def RATE_LIMIT_maxMessages : Nat := 100
def RATE_LIMIT_windowMs : Nat := 60000
def RATE_LIMIT_maxSubscriptions : Nat := 50

/-- `checkRateLimit`: reset the window if absent or expired, increment the
counter, and reject when the counter exceeds `maxMessages`. -/
def checkRateLimit (now : Nat) (ri : Option RateInfo) : Bool × RateInfo :=
  let r := match ri with
    | some r =>
        if r.resetTime ≤ now then ({ count := 0, resetTime := now + RATE_LIMIT_windowMs } : RateInfo)
        else r
    | none => { count := 0, resetTime := now + RATE_LIMIT_windowMs }
  let r2 : RateInfo := { r with count := r.count + 1 }
  (decide (r2.count ≤ RATE_LIMIT_maxMessages), r2)

/-- JS `Set.prototype.add`. -/
def setAdd (s : List String) (x : String) : List String :=
  if x ∈ s then s else s ++ [x]

/-- Payload of a `subscribe` frame (`none` models a missing field). -/
structure SubData where
  wallet : Option String
  sessionId : Option String
deriving Repr, DecidableEq

/-- What `handleSubscribe` sends back on the socket. -/
inductive SubOutcome
  | err (code message : String) (recoverable : Bool)
  | ack (wallet sessionId : String)
deriving Repr, DecidableEq

/-- `validateSubscribeData`: the normalized wallet is the checksummed form
returned by the validator; a falsy (missing or empty) wallet or a failed
validation produce the joined error message. -/
def validateSubscribeData (d : SubData) : Except String (String × Option String) :=
  match d.wallet with
  | none => .error "Wallet address is required"
  | some w =>
      if w = "" then .error "Wallet address is required"
      else
        match isValidEthereumAddress w with
        | none => .error (String.intercalate ", " (addrErrors w))
        | some norm => .ok (norm, d.sessionId)

/-- Result of one `handleSubscribe` call. -/
structure SubResult where
  conn : Conn
  rate : RateInfo
  outcome : SubOutcome
deriving Repr, DecidableEq

/-- `handleSubscribe`: refresh activity, rate-limit, validate, enforce the
subscription cap, then add the normalized wallet to the connection's set.
`fresh` models `Helpers.generateUniqueId('session')` (used when the client
supplied no session id, or a falsy one). -/
def handleSubscribe (now : Nat) (fresh : String) (conn : Conn) (ri : Option RateInfo)
    (d : SubData) : SubResult :=
  let conn := { conn with lastActivity := now }
  let (ok, ri') := checkRateLimit now ri
  if !ok then
    ⟨conn, ri', .err "RATE_LIMIT_EXCEEDED" "Too many messages, please slow down" true⟩
  else
    match validateSubscribeData d with
    | .error msg => ⟨conn, ri', .err "INVALID_SUBSCRIPTION" msg true⟩
    | .ok (w, sidOpt) =>
        if RATE_LIMIT_maxSubscriptions ≤ conn.subscribedWallets.length then
          ⟨conn, ri', .err "SUBSCRIPTION_LIMIT_EXCEEDED"
            "Maximum 50 subscriptions allowed" true⟩
        else
          let sid := match sidOpt with
            | some s => if s = "" then fresh else s
            | none => fresh
          ⟨{ conn with
              subscribedWallets := setAdd conn.subscribedWallets w,
              sessionId := some sid }, ri', .ack w sid⟩

/-- The connections a broadcast for `walletAddress` is delivered to: those
whose subscription set contains `walletAddress.toLowerCase()` (the routing
test of `broadcastScoreUpdate` and `broadcastToWalletSubscribers`). -/
def deliveredTo (conns : List Conn) (walletAddress : String) : List Conn :=
  conns.filter (fun c => toLowerStr walletAddress ∈ c.subscribedWallets)

/-- A sequence of rate-limit checks at the given arrival times; returns the
accept/reject booleans and the final counter state. -/
def rateSim : Option RateInfo → List Nat → List Bool × Option RateInfo
  | ri, [] => ([], ri)
  | ri, t :: ts =>
      let (ok, r') := checkRateLimit t ri
      let (rest, rf) := rateSim (some r') ts
      (ok :: rest, rf)

/-! ## Feature extraction and scoring (`featureProcessor.ts`, `scoringService.ts`)

JavaScript numbers are modelled as `ℚ`.  The transcendental functions
`Math.log10`, `Math.log` and `Math.log2` are collected in a `JSMath`
parameter; none of the verified properties depend on their values.  A note on
two floating-point corners that `ℚ` cannot represent: `0/0` is `NaN` in
JavaScript but `0` in `ℚ` (the inputs used in the theorems below avoid every
division by zero), and `Array.prototype.sort()` without a comparator sorts
numbers lexicographically as strings — for the equal-digit-width timestamps
used below this coincides with the numeric ascending order modelled here. -/

/-- The transcendental `Math` functions, as parameters. -/
structure JSMath where
  log10 : ℚ → ℚ
  ln : ℚ → ℚ
  log2 : ℚ → ℚ

/-- `RiskLevel` (string enum `'low' | 'medium' | 'high' | 'critical'`). -/
inductive RiskLevel
  | low | medium | high | critical
deriving Repr, DecidableEq

/-- `WalletEvent` with its numeric string fields (`value`, `gasPrice`,
`gasUsed`) already parsed to `ℚ`, as `parseFloat` does at every use site.
`fromAddr` and `toAddr` embed the source fields `from` and `to` (Lean keywords). -/
structure EventQ where
  type : String
  hash : String
  fromAddr : String
  toAddr : Option String
  value : ℚ
  blockNumber : Nat
  timestamp : ℚ
  gasPrice : ℚ
  gasUsed : ℚ
  status : String
  input : Option String
  contractAddress : Option String
  nonce : Nat
deriving Repr, DecidableEq

/-- `FeatureProcessor.transactionHistory : Map<string, WalletEvent[]>`. -/
def ProcState := List (String × List EventQ)

/-- `this.transactionHistory.get(w) || []`. -/
def psGet : ProcState → String → List EventQ
  | [], _ => []
  | (k, x) :: rest, w => if w = k then x else psGet rest w

/-- `this.transactionHistory.set(w, v)`. -/
def psSet : ProcState → String → List EventQ → ProcState
  | [], w, v => [(w, v)]
  | (k, x) :: rest, w, v =>
      if k = w then (k, v) :: rest else (k, x) :: psSet rest w v

/-- Stable insertion for a descending-timestamp sort (ties keep the earlier
element first, as the stable JS `sort((a, b) => b.timestamp - a.timestamp)`). -/
def insertDesc (e : EventQ) : List EventQ → List EventQ
  | [] => [e]
  | x :: xs => if x.timestamp ≤ e.timestamp then e :: x :: xs else x :: insertDesc e xs

/-- `[...].sort((a, b) => b.timestamp - a.timestamp)`. -/
def sortByTimestampDesc : List EventQ → List EventQ
  | [] => []
  | x :: xs => insertDesc x (sortByTimestampDesc xs)

def MAX_HISTORY : Nat := 1000

/-- `FeatureProcessor.updateTransactionHistory`: append the new events to the
per-wallet history, sort newest-first, and keep the newest `MAX_HISTORY`. -/
def updateTransactionHistory (st : ProcState) (walletAddress : String)
    (newEvents : List EventQ) : ProcState :=
  let current := psGet st walletAddress
  let updated := (sortByTimestampDesc (current ++ newEvents)).take MAX_HISTORY
  psSet st walletAddress updated

/-- Sum of a list of rationals. -/
def sumQ (l : List ℚ) : ℚ := l.foldl (· + ·) 0

/-- `Math.max(...l)` for the nonempty lists it is applied to. -/
def maxD : List ℚ → ℚ
  | [] => 0
  | x :: xs => xs.foldl max x

/-- `Math.min(...l)` for the nonempty lists it is applied to. -/
def minD : List ℚ → ℚ
  | [] => 0
  | x :: xs => xs.foldl min x

/-- `FeatureVector` (all numeric). -/
structure FeatureVectorQ where
  transactionCount : ℚ
  transactionsPerDay : ℚ
  avgTransactionValue : ℚ
  maxTransactionValue : ℚ
  minTransactionValue : ℚ
  accountAgeDays : ℚ
  daysSinceLastTx : ℚ
  activeDays : ℚ
  uniqueCounterparties : ℚ
  contractInteractions : ℚ
  failedTransactions : ℚ
  gasUsagePattern : ℚ
  totalVolume : ℚ
  balance : ℚ
  avgGasPrice : ℚ
  valueConcentration : ℚ
  timeDistribution : ℚ
  activityConsistency : ℚ
  clusteringCoefficient : ℚ
  pageRank : ℚ

/-- Hour-of-day bucket of `new Date(ts * 1000).getHours()` (modelled in UTC;
the server's timezone is not part of the source). -/
def hourOf (ts : ℚ) : Nat := (Int.toNat ⌊ts / 3600⌋) % 24

/-- Day bucket of the `Y-M-D` string built by `calculateActiveDays`
(modelled as the UTC day index). -/
def dayOf (ts : ℚ) : Int := ⌊ts / 86400⌋

/-- `FeatureProcessor.calculateActiveDays`: number of distinct days with
activity. -/
def calculateActiveDays (events : List EventQ) : Nat :=
  ((events.map (fun tx => dayOf tx.timestamp)).dedup).length

/-- Stable ascending insertion for `Array.prototype.sort()` on timestamps. -/
def insertAsc (x : ℚ) : List ℚ → List ℚ
  | [] => [x]
  | y :: ys => if x ≤ y then x :: y :: ys else y :: insertAsc x ys

def sortAsc : List ℚ → List ℚ
  | [] => []
  | x :: xs => insertAsc x (sortAsc xs)

/-- `FeatureProcessor.calculateActivityConsistency`:
`max(0, 1 - variance/avgInterval²)` over consecutive inter-event intervals. -/
def calculateActivityConsistency (events : List EventQ) : ℚ :=
  if events.length < 2 then 0
  else
    let timestamps := sortAsc (events.map (·.timestamp))
    let intervals := (timestamps.zip (timestamps.drop 1)).map (fun p => p.2 - p.1)
    let avgInterval := sumQ intervals / intervals.length
    let variance := sumQ (intervals.map (fun i => (i - avgInterval) ^ 2)) / intervals.length
    max 0 (1 - variance / (avgInterval * avgInterval))

/-- `FeatureProcessor.calculateTimeDistribution`: normalized entropy of the
hour-of-day histogram. -/
def calculateTimeDistribution (m : JSMath) (events : List EventQ) : ℚ :=
  if events.length = 0 then 0
  else
    let hours := (List.range 24).map
      (fun h => ((events.filter (fun tx => hourOf tx.timestamp = h)).length : ℚ))
    let total := sumQ hours
    let probabilities := hours.map (· / total)
    let entropy := probabilities.foldl (fun acc p => if 0 < p then acc - p * m.log2 p else acc) 0
    entropy / m.log2 24

/-- `FeatureProcessor.normalizeValue`: wei-looking values are scaled to ETH. -/
def normalizeValue (value : ℚ) : ℚ :=
  if value > 10 ^ 15 then value / 10 ^ 18 else value

/-- `FeatureProcessor.normalizeGasPattern`. -/
def normalizeGasPattern (gasPrice : ℚ) : ℚ :=
  min (gasPrice / 10 ^ 9 / 1000) 1

/-- The feature computation of `FeatureProcessor.extractFeaturesFromEvent`
over the stored history `walletEvents` (the code from `const transactionCount`
to the `features` record). -/
def featuresOfHistory (m : JSMath) (now : ℚ) (walletEvents : List EventQ) :
    FeatureVectorQ :=
  let transactionCount : ℚ := walletEvents.length
  let successfulTxs := walletEvents.filter (fun tx => tx.status = "success")
  let failedTxs := walletEvents.filter (fun tx => tx.status = "failed")
  let values := successfulTxs.map (·.value)
  let totalVolume := sumQ values
  let avgTransactionValue := if values.length > 0 then totalVolume / values.length else 0
  let maxTransactionValue := if values.length > 0 then maxD values else 0
  let minTransactionValue := if values.length > 0 then minD values else 0
  let timestamps := walletEvents.map (·.timestamp)
  let accountAgeDays := if timestamps.length > 0 then (now - minD timestamps) / 86400 else 0
  let daysSinceLastTx := if timestamps.length > 0 then (now - maxD timestamps) / 86400 else 365
  let counterpartyList :=
    (walletEvents.flatMap (fun tx => [tx.fromAddr] ++ tx.toAddr.toList)).filter (· ≠ "")
  let uniqueCounterparties : ℚ := counterpartyList.dedup.length
  let contractInteractions : ℚ := (walletEvents.filter (fun tx =>
    (tx.contractAddress.getD "" ≠ "") ||
    (tx.input.getD "" ≠ "" && (tx.input.getD "").length > 10))).length
  let gasPrices := walletEvents.map (·.gasPrice)
  let avgGasPrice := if gasPrices.length > 0 then sumQ gasPrices / gasPrices.length else 0
  let activeDays : ℚ := calculateActiveDays walletEvents
  let transactionsPerDay := if accountAgeDays > 0 then transactionCount / accountAgeDays else 0
  let valueConcentration :=
    if maxTransactionValue > 0 then avgTransactionValue / maxTransactionValue else 0
  { transactionCount := transactionCount
    transactionsPerDay := min transactionsPerDay 100
    avgTransactionValue := normalizeValue avgTransactionValue
    maxTransactionValue := normalizeValue maxTransactionValue
    minTransactionValue := normalizeValue minTransactionValue
    accountAgeDays := min accountAgeDays (365 * 5)
    daysSinceLastTx := min daysSinceLastTx 365
    activeDays := min activeDays (365 * 2)
    uniqueCounterparties := uniqueCounterparties
    contractInteractions := contractInteractions
    failedTransactions := failedTxs.length
    gasUsagePattern := normalizeGasPattern avgGasPrice
    totalVolume := normalizeValue totalVolume
    balance := 0
    avgGasPrice := normalizeValue avgGasPrice
    valueConcentration := valueConcentration
    timeDistribution := calculateTimeDistribution m walletEvents
    activityConsistency := calculateActivityConsistency walletEvents
    clusteringCoefficient := 0
    pageRank := 0 }

/-- `FeatureProcessor.extractFeaturesFromEvent`: update the per-wallet
history, then compute the feature vector over the whole stored history
(`walletEvents = this.transactionHistory.get(walletAddress) || []`).
`now` is `Date.now() / 1000`. -/
def extractFeaturesFromEvent (m : JSMath) (now : ℚ) (st : ProcState)
    (walletAddress : String) (events : List EventQ) : FeatureVectorQ × ProcState :=
  let st' := updateTransactionHistory st walletAddress events
  (featuresOfHistory m now (psGet st' walletAddress), st')

/-! ### `ScoringService`

The deployed configuration this file verifies has `this.model === null`
(`loadMLModel` never throws; when the ONNX artifact is missing it sets the
model to `null` and scoring proceeds through `getMLPrediction`'s
model-absent branch).  `Helpers.currentTimestamp()` is the parameter
`tsSec`; the blacklist is a list of lowercase addresses. -/

/-- `ScoringResult`.  The free-text `explanation` field is not modelled; no
claim mentions it. -/
structure ScoringResultQ where
  walletAddress : String
  reputationScore : ℚ
  riskLevel : RiskLevel
  confidence : ℚ
  features : FeatureVectorQ
  timestamp : ℚ
  transactionCount : Nat
  flags : List String

/-- `ScoringService.determineRiskLevel` with the `SCORE_THRESHOLDS`
`{low: 70, medium: 50, high: 30, critical: 0}`. -/
def determineRiskLevel (score : ℚ) : RiskLevel :=
  if 70 ≤ score then .low
  else if 50 ≤ score then .medium
  else if 30 ≤ score then .high
  else .critical

/-- `ScoringService.generateFlags` (flag order as in the source). -/
def generateFlags (blacklist : List String) (walletAddress : String)
    (features : FeatureVectorQ) (score : ℚ) : List String :=
  (if toLowerStr walletAddress ∈ blacklist then ["blacklisted"] else []) ++
  (if features.failedTransactions > 10 then ["high_failure_rate"] else []) ++
  (if features.transactionsPerDay > 50 then ["high_frequency"] else []) ++
  (if features.uniqueCounterparties > 500 then ["many_counterparties"] else []) ++
  (if features.accountAgeDays < 7 then ["new_account"] else []) ++
  (if features.contractInteractions > 200 then ["high_contract_activity"] else []) ++
  (if score < 30 then ["critical_risk"] else if score < 50 then ["high_risk"] else [])

/-- `parseFloat(x.toFixed(2))`: round to two decimal places. -/
def round2 (q : ℚ) : ℚ := (round (q * 100) : ℤ) / 100

def BLACKLIST_PENALTY : ℚ := -30

/-- The final lines of `ScoringService.calculateFallbackScore` (1491–1501):
the published score is the clamped score rounded to two decimals, while the
risk level and the flags were derived from the unrounded clamped score. -/
def assembleFallbackResult (blacklist : List String) (walletAddress : String)
    (features : FeatureVectorQ) (tsSec : ℚ) (eventCount : Nat)
    (score confidence : ℚ) : ScoringResultQ :=
  { walletAddress := walletAddress
    reputationScore := round2 score
    riskLevel := determineRiskLevel score
    confidence := round2 confidence
    features := features
    timestamp := tsSec
    transactionCount := eventCount
    flags := generateFlags blacklist walletAddress features score }

/-- `ScoringService.calculateFallbackScore` (rule-based scoring). -/
def calculateFallbackScore (m : JSMath) (blacklist : List String) (now tsSec : ℚ)
    (st : ProcState) (walletAddress : String) (events : List EventQ) :
    ScoringResultQ × ProcState :=
  let (features, st') := extractFeaturesFromEvent m now st walletAddress events
  let baseScore : ℚ := 70
  let (patternRisk, patternBonus) :=
    if events.length > 0 then
      let recentTransactions := events.drop (events.length - 20)
      let pr := sumQ (recentTransactions.map (fun event =>
        (if event.value > 1000 then 5 else 0) + (if event.status = "failed" then 8 else 0)))
      let pr := pr +
        (if features.failedTransactions > 0 then features.failedTransactions * 5 else 0)
      let pb :=
        (if features.uniqueCounterparties > 5 then
          min 15 (m.ln (features.uniqueCounterparties + 1) * 3) else 0)
      let pb := pb +
        (if features.accountAgeDays > 7 then
          min 10 (m.ln (features.accountAgeDays + 1) * 2) else 0)
      (pr, pb)
    else (0, 0)
  let baseScore := baseScore +
    (if features.transactionCount > 0 then
      min 8 (m.log10 (features.transactionCount + 1) * 2) else 0)
  let patternRisk := patternRisk +
    (if features.transactionsPerDay > 50 then
      min 25 ((features.transactionsPerDay - 50) * (3 / 10)) else 0)
  let patternBonus := patternBonus +
    (if ¬ features.transactionsPerDay > 50 ∧
        features.transactionsPerDay > 0 ∧ features.transactionsPerDay ≤ 10 then
      min 5 (features.transactionsPerDay * (3 / 10)) else 0)
  let patternRisk := patternRisk +
    (if features.avgTransactionValue > 100 then
      min 15 (m.log10 features.avgTransactionValue * 2) else 0)
  let patternRisk := patternRisk + features.failedTransactions * 4
  let score := baseScore - patternRisk + patternBonus
  let score :=
    if features.accountAgeDays > 30 then score + min 15 (m.log10 features.accountAgeDays * 3)
    else if features.accountAgeDays < 1 then score - 20
    else score
  let score := if toLowerStr walletAddress ∈ blacklist then score + BLACKLIST_PENALTY else score
  let score := max 0 (min 100 score)
  let confidence := min (8 / 10) (max (3 / 10) ((events.length : ℚ) * (5 / 100)))
  (assembleFallbackResult blacklist walletAddress features tsSec events.length score confidence,
   st')

/-- `FeatureProcessor.getDefaultFeatures`. -/
def getDefaultFeatures : FeatureVectorQ :=
  { transactionCount := 0
    transactionsPerDay := 0
    avgTransactionValue := 0
    maxTransactionValue := 0
    minTransactionValue := 0
    accountAgeDays := 0
    daysSinceLastTx := 365
    activeDays := 0
    uniqueCounterparties := 0
    contractInteractions := 0
    failedTransactions := 0
    gasUsagePattern := 0
    totalVolume := 0
    balance := 0
    avgGasPrice := 0
    valueConcentration := 0
    timeDistribution := 0
    activityConsistency := 0
    clusteringCoefficient := 0
    pageRank := 0 }

/-- `ModelPrediction`. -/
structure ModelPredictionQ where
  score : ℚ
  probabilities : List ℚ
deriving Repr, DecidableEq

def zeroAddress : String := "0x0000000000000000000000000000000000000000"

/-- `ScoringService.getMLPrediction` when `this.model === null`: the fallback
is invoked **with the zero address and an empty event list**, not with the
wallet being scored. -/
def getMLPredictionNoModel (m : JSMath) (blacklist : List String) (now tsSec : ℚ)
    (st : ProcState) : ModelPredictionQ × ProcState :=
  let (fallbackResult, st') := calculateFallbackScore m blacklist now tsSec st zeroAddress []
  ({ score := fallbackResult.reputationScore
     probabilities := [1 - fallbackResult.reputationScore / 100,
                       fallbackResult.reputationScore / 100] }, st')

/-- The tail of `ScoringService.calculateWalletScore` (lines 1103–1125),
common to the model-loaded and model-absent runs: blacklist penalty, clamp
to [0, 100], risk level, confidence `probabilities[1] || 0.5`, flags. -/
def assembleCalculateResult (blacklist : List String) (walletAddress : String)
    (features : FeatureVectorQ) (tsSec : ℚ) (eventCount : Nat)
    (mlPrediction : ModelPredictionQ) : ScoringResultQ :=
  let baseScore := mlPrediction.score
  let blacklistPenalty := if toLowerStr walletAddress ∈ blacklist then BLACKLIST_PENALTY else 0
  let finalScore := max 0 (min 100 (baseScore + blacklistPenalty))
  let riskLevel := determineRiskLevel finalScore
  let confidence := match mlPrediction.probabilities.get? 1 with
    | some p => if p = 0 then 1 / 2 else p
    | none => 1 / 2
  { walletAddress := walletAddress
    reputationScore := finalScore
    riskLevel := riskLevel
    confidence := confidence
    features := features
    timestamp := tsSec
    transactionCount := eventCount
    flags := generateFlags blacklist walletAddress features finalScore }

/-- `ScoringService.calculateWalletScore` with `this.model === null`. -/
def calculateWalletScoreNoModel (m : JSMath) (blacklist : List String) (now tsSec : ℚ)
    (st : ProcState) (walletAddress : String) (events : List EventQ) :
    ScoringResultQ × ProcState :=
  let (features, st1) := extractFeaturesFromEvent m now st walletAddress events
  let (mlPrediction, st2) := getMLPredictionNoModel m blacklist now tsSec st1
  (assembleCalculateResult blacklist walletAddress features tsSec events.length mlPrediction,
   st2)

/-- The error result stored by `ScoringService.batchScoreWallets` when
scoring a wallet of the batch throws (lines 1674–1684). -/
def batchErrorResult (m : JSMath) (now tsSec : ℚ) (st : ProcState)
    (walletAddress : String) (events : List EventQ) : ScoringResultQ × ProcState :=
  let (features, st') := extractFeaturesFromEvent m now st walletAddress events
  ({ walletAddress := walletAddress
     reputationScore := 50
     riskLevel := .medium
     confidence := 0
     features := features
     timestamp := tsSec
     transactionCount := events.length
     flags := ["scoring_error"] }, st')

/-! ## Monitor coordinator (`walletMonitorService.ts`) -/

def FLAGGING_THRESHOLD : ℚ := 40

/-- `WalletMonitorService.bufferEvent`: push, then
`buffer.splice(0, buffer.length - 500)` whenever the length exceeds 1000. -/
def bufferEvent (buffer : List EventQ) (event : EventQ) : List EventQ :=
  let buffer := buffer ++ [event]
  if buffer.length > 1000 then buffer.drop (buffer.length - 500) else buffer

/-- What `contractService.isWalletFlagged` did, as observed by the
coordinator: resolved `true`, resolved `false`, or threw. -/
inductive RegistryResp
  | flagged | notFlagged | errored
deriving Repr, DecidableEq

/-- Outcome of the `contractService.flagWallet` call, if it is made. -/
inductive FlagCallOutcome
  | succeeded (txHash : Option String)
  | failed (err : String)
  | threw (err : String)
deriving Repr, DecidableEq

/-- Externally visible actions of `checkAndFlagWallet`. -/
inductive FlagEffect
  | flagCall (wallet : String) (riskLevel : RiskLevel) (score : ℚ)
  | broadcastFlagged (wallet : String) (riskLevel : RiskLevel) (score : ℚ)
      (txHash : Option String)
deriving Repr, DecidableEq

/-- `WalletMonitorService.checkAndFlagWallet`: flag on-chain iff the score is
below `FLAGGING_THRESHOLD` with CRITICAL risk and the registry reports the
wallet as not yet flagged; a registry error is swallowed by the outer catch. -/
def checkAndFlagWallet (registry : RegistryResp) (callOutcome : FlagCallOutcome)
    (walletAddress : String) (score : ScoringResultQ) : List FlagEffect :=
  if score.reputationScore < FLAGGING_THRESHOLD ∧ score.riskLevel = .critical then
    match registry with
    | .flagged => []
    | .errored => []
    | .notFlagged =>
        let call := FlagEffect.flagCall walletAddress score.riskLevel score.reputationScore
        match callOutcome with
        | .succeeded tx =>
            [call, .broadcastFlagged walletAddress score.riskLevel score.reputationScore tx]
        | .failed _ => [call]
        | .threw _ => [call]
  else []

/-- Was the on-chain flagging write invoked? -/
def flagInvoked (effects : List FlagEffect) : Bool :=
  effects.any fun e => match e with
    | .flagCall _ _ _ => true
    | _ => false

/-- `WalletMonitoringConfig`. -/
structure WalletMonitoringConfig where
  includeTransactions : Bool
  includeTokenTransfers : Bool
  includeInternalTransactions : Bool
  fromBlock : Option Nat
deriving Repr, DecidableEq

/-- `WalletMonitor` (the interface at the end of `walletMonitorService.ts`). -/
structure WalletMonitorQ where
  walletAddress : String
  startedAt : Nat
  lastActivity : Nat
  eventCount : Nat
  lastScore : Option ScoringResultQ
  isActive : Bool
  config : WalletMonitoringConfig

/-- `monitoredWallets : Map<string, WalletMonitor>`. -/
abbrev MonMap := List (String × WalletMonitorQ)

/-- `monitoredWallets.get(w)`. -/
def mmLookup : MonMap → String → Option WalletMonitorQ
  | [], _ => none
  | (k, x) :: rest, w => if w = k then some x else mmLookup rest w

def mmSet : MonMap → String → WalletMonitorQ → MonMap
  | [], w, v => [(w, v)]
  | (k, x) :: rest, w, v =>
      if k = w then (k, v) :: rest else (k, x) :: mmSet rest w v

/-- `monitoredWallets.delete(w)`. -/
def mmDelete (st : MonMap) (w : String) : MonMap :=
  st.filter (fun p => p.1 ≠ w)

/-- The coordinator operations that touch `monitoredWallets`.
`walletEvent` bundles `handleWalletEvent` together with the
`monitor.lastScore` write done by `calculateAndUpdateScore`; the score it
stores is carried as data. -/
inductive CoordOp
  | startMonitoring (walletAddress : String) (nowMs : Nat) (config : WalletMonitoringConfig)
  | stopMonitoring (walletAddress : String)
  | walletEvent (walletAddress : String) (nowMs : Nat) (newScore : Option ScoringResultQ)

/-- One coordinator step.  `startMonitoringWallet` validates, is idempotent,
and stores a monitor created with `isActive := true`; `stopMonitoringWallet`
deletes the entry; `handleWalletEvent` drops the event unless a monitor is
present and active, and never writes `isActive`. -/
def applyCoordOp (st : MonMap) : CoordOp → MonMap
  | .startMonitoring w now cfg =>
      match isValidEthereumAddress w with
      | none => st
      | some normalizedAddress =>
          match mmLookup st normalizedAddress with
          | some _ => st
          | none =>
              mmSet st normalizedAddress
                { walletAddress := normalizedAddress
                  startedAt := now
                  lastActivity := now
                  eventCount := 0
                  lastScore := none
                  isActive := true
                  config := cfg }
  | .stopMonitoring w =>
      match isValidEthereumAddress w with
      | none => st
      | some normalizedAddress =>
          match mmLookup st normalizedAddress with
          | none => st
          | some _ => mmDelete st normalizedAddress
  | .walletEvent w now sc =>
      match mmLookup st w with
      | none => st
      | some monitor =>
          if monitor.isActive then
            mmSet st w
              { monitor with
                  lastActivity := now
                  eventCount := monitor.eventCount + 1
                  lastScore := sc }
          else st

/-- Runs of the coordinator start from the empty map. -/
def runCoordOps (ops : List CoordOp) : MonMap :=
  ops.foldl applyCoordOp []

/-! ## Flag-registry client (`contractService.ts`) -/

/-- `Validators.isValidScore` (`Number.isFinite` always holds in `ℚ`). -/
def isValidScore (score : ℚ) : Bool :=
  decide (0 ≤ score ∧ score ≤ 100)

/-- `Validators.isValidRiskLevel`. -/
def isValidRiskLevel (riskLevel : String) : Bool :=
  toLowerStr riskLevel ∈ (["low", "medium", "high", "critical"] : List String)

/-- `ContractService.validateFlaggingInputs`: `some msg` is the message of
the error it throws; `none` means it passes. -/
def validateFlaggingInputs (walletAddress riskLevel : String) (reputationScore : ℚ)
    (reason : String) : Option String :=
  if (isValidEthereumAddress walletAddress).isNone then
    some ("Invalid wallet address: " ++ String.intercalate ", " (addrErrors walletAddress))
  else if ¬ isValidRiskLevel riskLevel then some "Invalid risk level"
  else if ¬ isValidScore reputationScore then some "Invalid reputation score"
  else if reason = "" ∨ reason.length > 500 then
    some "Reason must be between 1 and 500 characters"
  else none

/-- `ContractService.riskLevelToContractValue`: the mapping is keyed by the
exact enum strings, so any other casing yields `undefined`. -/
def riskLevelToContractValue (riskLevel : String) : Option Nat :=
  if riskLevel = "low" then some 0
  else if riskLevel = "medium" then some 1
  else if riskLevel = "high" then some 2
  else if riskLevel = "critical" then some 3
  else none

/-- Outcome of `contract.flagWallet(...)` followed by
`transaction.wait(CONFIRMATIONS)`: either some stage threw (this includes an
`execution reverted` rejection such as the contract's duplicate-flag
`require`), or a receipt arrived with the given `status` (or `null`). -/
inductive TxOutcome
  | throws (msg : String)
  | mined (hash : String) (receiptStatus : Option Nat)
deriving Repr, DecidableEq

/-- Environment of one `flagWallet` call. -/
structure ContractEnv where
  contractInitialized : Bool
  outcome : TxOutcome
deriving Repr, DecidableEq

/-- `formatReceipt` output (hash and boolean status; the remaining fields
are copies of receipt data not used by any caller verified here). -/
structure ReceiptQ where
  hash : String
  status : Bool
deriving Repr, DecidableEq

/-- The structured result of `ContractService.flagWallet`. -/
structure FlagWalletResult where
  success : Bool
  transactionHash : Option String
  receipt : Option ReceiptQ
  error : Option String
deriving Repr, DecidableEq

/-- `ContractService.flagWallet`.  The whole body sits in a `try/catch` whose
handler returns `{ success: false, error: formatError(error) }`, so the
embedding is a total function; the second component records whether the
contract call was attempted (no call is attempted on validation failure or
an uninitialized contract). -/
def flagWallet (env : ContractEnv) (walletAddress riskLevel : String)
    (reputationScore : ℚ) (reason : String) : FlagWalletResult × Bool :=
  match validateFlaggingInputs walletAddress riskLevel reputationScore reason with
  | some msg => (⟨false, none, none, some msg⟩, false)
  | none =>
      if env.contractInitialized = false then
        (⟨false, none, none, some "Contract not initialized"⟩, false)
      else
        match riskLevelToContractValue riskLevel with
        | none =>
            -- `mapping[riskLevel]` is `undefined`; ethers throws while
            -- encoding the argument, before anything is submitted.
            (⟨false, none, none, some "invalid BigNumberish value"⟩, false)
        | some _ =>
            match env.outcome with
            | .throws msg => (⟨false, none, none, some msg⟩, true)
            | .mined h (some 1) => (⟨true, some h, some ⟨h, true⟩, none⟩, true)
            | .mined h _ => (⟨false, some h, none, some "Transaction reverted"⟩, true)

/-! ## Claim C4: the per-wallet event buffer at its cap -/

/-- A synthetic concrete event (used to build concrete buffers and feeds). -/
def mkEvent (i : Nat) : EventQ :=
  { type := "transaction"
    hash := "0xhash"
    fromAddr := "0xa"
    toAddr := none
    value := 0
    blockNumber := i
    timestamp := (i : ℚ)
    gasPrice := 0
    gasUsed := 0
    status := "success"
    input := none
    contractAddress := none
    nonce := i }

/-- A concrete buffer holding exactly 1000 events. -/
def fullBuffer : List EventQ := (List.range 1000).map mkEvent

/-- **C4** is false on the code: appending one event to a buffer of exactly
1000 events does not evict a single oldest event — the buffer is truncated
to 500 events, so it does not hold the newest 1000 afterwards. -/
theorem bufferEvent_cap_counterexample :
    (bufferEvent fullBuffer (mkEvent 1000)).length = 500
    ∧ bufferEvent fullBuffer (mkEvent 1000) ≠ (fullBuffer ++ [mkEvent 1000]).drop 1 := by
  have h : fullBuffer.length = 1000 := by simp [fullBuffer]
  have hlen : (fullBuffer ++ [mkEvent 1000]).length = 1001 := by simp [h]
  have hgt : (fullBuffer ++ [mkEvent 1000]).length > 1000 := by omega
  have hdrop : (fullBuffer ++ [mkEvent 1000]).drop 501
      = fullBuffer.drop 501 ++ [mkEvent 1000] :=
    List.drop_append_of_le_length (by omega)
  have hc : bufferEvent fullBuffer (mkEvent 1000) = fullBuffer.drop 501 ++ [mkEvent 1000] := by
    simp only [bufferEvent, if_pos hgt, hlen]
    simpa using hdrop
  have hlen500 : (bufferEvent fullBuffer (mkEvent 1000)).length = 500 := by
    rw [hc]; simp [h]
  refine ⟨hlen500, fun heq => ?_⟩
  have := congrArg List.length heq
  rw [hlen500] at this
  simp [h] at this

/-- **C4** (amended).  The buffer cap is 1000, but eviction is bulk: when an
append makes the buffer exceed 1000 events (i.e. reach 1001),
`buffer.splice(0, buffer.length - 500)` removes the 501 oldest events in one
step, leaving the newest 500 (the newest 499 old events plus the new one). -/
theorem bufferEvent_truncates_to_newest_500 (buffer : List EventQ) (event : EventQ)
    (h : buffer.length = 1000) :
    bufferEvent buffer event = buffer.drop 501 ++ [event]
    ∧ (bufferEvent buffer event).length = 500 := by
  have hlen : (buffer ++ [event]).length = 1001 := by simp [h]
  have hgt : (buffer ++ [event]).length > 1000 := by omega
  have hdrop : (buffer ++ [event]).drop 501 = buffer.drop 501 ++ [event] :=
    List.drop_append_of_le_length (by omega)
  constructor
  · simp only [bufferEvent, if_pos hgt, hlen]
    simpa using hdrop
  · simp only [bufferEvent, if_pos hgt, hlen]
    simp [List.length_drop, h]

/-- Witness for `bufferEvent_truncates_to_newest_500` at a concrete buffer. -/
theorem bufferEvent_truncates_to_newest_500_witness :
    bufferEvent fullBuffer (mkEvent 1000) = fullBuffer.drop 501 ++ [mkEvent 1000]
    ∧ (bufferEvent fullBuffer (mkEvent 1000)).length = 500 :=
  bufferEvent_truncates_to_newest_500 fullBuffer (mkEvent 1000) (by simp [fullBuffer])

/-! ## Claim C5: the flagging decision -/

/-- **C5.** For every wallet `W` and `ScoringResult` `S` processed in a batch
tick, the on-chain flagging write is invoked iff
`S.reputation_score < 40 ∧ S.risk_level = CRITICAL` and the flag registry
reports `W` as not already flagged; and when `W` is already flagged no flag
call is made and no effect is produced. -/
theorem checkAndFlagWallet_flag_iff (registry : RegistryResp)
    (callOutcome : FlagCallOutcome) (walletAddress : String) (score : ScoringResultQ) :
    (flagInvoked (checkAndFlagWallet registry callOutcome walletAddress score) = true ↔
      (score.reputationScore < 40 ∧ score.riskLevel = RiskLevel.critical ∧
        registry = RegistryResp.notFlagged))
    ∧ checkAndFlagWallet RegistryResp.flagged callOutcome walletAddress score = [] := by
  constructor
  · unfold checkAndFlagWallet flagInvoked FLAGGING_THRESHOLD
    split
    · rename_i hcond
      cases registry <;> cases callOutcome <;> simp_all
    · rename_i hcond
      rw [not_and_or] at hcond
      cases registry <;> cases callOutcome <;> simp_all <;>
        (first
          | tauto
          | exact fun h1 => hcond.elim (fun h => absurd h1 (not_lt.mpr h)) id)
  · unfold checkAndFlagWallet
    split <;> rfl

/-! ## Helper lemmas about the history map -/

theorem psGet_psSet_eq (st : ProcState) (w : String) (v : List EventQ) :
    psGet (psSet st w v) w = v := by
  induction st with
  | nil => simp [psSet, psGet]
  | cons p rest ih =>
      obtain ⟨k, x⟩ := p
      by_cases h : k = w
      · subst h; simp [psSet, psGet]
      · simpa [psSet, psGet, h, Ne.symm h] using ih

theorem psGet_psSet_ne (st : ProcState) (w a : String) (v : List EventQ)
    (hne : a ≠ w) : psGet (psSet st w v) a = psGet st a := by
  induction st with
  | nil => simp [psSet, psGet, hne]
  | cons p rest ih =>
      obtain ⟨k, x⟩ := p
      by_cases h : k = w
      · subst h
        simp [psSet, psGet, hne]
      · by_cases hak : a = k
        · subst hak; simp [psSet, psGet, h]
        · simpa [psSet, psGet, h, hak] using ih

/-- Updating with no new events over an empty history stores `[]`. -/
theorem updateTransactionHistory_nil (st : ProcState) (w : String)
    (h : psGet st w = []) : updateTransactionHistory st w [] = psSet st w [] := by
  simp [updateTransactionHistory, h, sortByTimestampDesc]

/-- The feature computation over an empty history yields
`getDefaultFeatures`. -/
theorem featuresOfHistory_nil (m : JSMath) (now : ℚ) :
    featuresOfHistory m now [] = getDefaultFeatures := by
  simp [featuresOfHistory, getDefaultFeatures, sumQ, maxD, minD, calculateActiveDays,
    calculateTimeDistribution, calculateActivityConsistency, normalizeValue,
    normalizeGasPattern]

/-- Feature extraction over an empty history with no new events yields the
all-default feature vector. -/
theorem extractFeatures_empty (m : JSMath) (now : ℚ) (st : ProcState) (w : String)
    (h : psGet st w = []) :
    extractFeaturesFromEvent m now st w [] = (getDefaultFeatures, psSet st w []) := by
  simp only [extractFeaturesFromEvent]
  rw [updateTransactionHistory_nil st w h, psGet_psSet_eq, featuresOfHistory_nil]

/-- `psGet` after an update of a different wallet's history. -/
theorem psGet_update_ne (st : ProcState) (w a : String) (evs : List EventQ)
    (hne : a ≠ w) : psGet (updateTransactionHistory st w evs) a = psGet st a := by
  simp only [updateTransactionHistory]
  exact psGet_psSet_ne _ _ _ _ hne

set_option maxHeartbeats 1600000 in
/-- `calculateFallbackScore` at an empty history with no events: the clamped
internal score is 50 (20 if the scored address is blacklisted), the
confidence floor 0.3 applies, and only the scored address's history entry is
touched. -/
theorem calculateFallbackScore_empty (m : JSMath) (blacklist : List String)
    (now tsSec : ℚ) (st : ProcState) (w : String) (h : psGet st w = []) :
    calculateFallbackScore m blacklist now tsSec st w []
      = (assembleFallbackResult blacklist w getDefaultFeatures tsSec 0
          (if toLowerStr w ∈ blacklist then 20 else 50) (3 / 10), psSet st w []) := by
  have hx := extractFeatures_empty m now st w h
  simp only [calculateFallbackScore, hx]
  norm_num [getDefaultFeatures, BLACKLIST_PENALTY]
  split_ifs with hmem <;> norm_num

/-! ## Claim C2: the model-absent scoring path ignores the wallet's events -/

/-- A `JSMath` instance usable at inputs whose verified values do not depend
on the transcendental functions. -/
def mathStub : JSMath := ⟨fun _ => 0, fun _ => 0, fun _ => 0⟩

/-- **C2** is false on the code (the spec is the evident intent): when the ML
model is not loaded, `getMLPrediction` invokes the rule-based fallback with
the **zero address and an empty event list** instead of the scored wallet's
features, so `calculateWalletScore(W, E)` returns a reputation score that
does not depend on `E` at all — it is 50 for every wallet and every event
list (20 when `W` itself is blacklisted), provided the zero address has no
stored history and is not blacklisted. -/
theorem calculateWalletScore_noModel_constant (m : JSMath) (blacklist : List String)
    (now tsSec : ℚ) (st : ProcState) (walletAddress : String) (events : List EventQ)
    (hW : walletAddress ≠ zeroAddress) (hzero : psGet st zeroAddress = [])
    (hbl : zeroAddress ∉ blacklist) :
    (calculateWalletScoreNoModel m blacklist now tsSec st walletAddress
        events).1.reputationScore
      = if toLowerStr walletAddress ∈ blacklist then 20 else 50 := by
  have hfb := calculateFallbackScore_empty m blacklist now tsSec
      (updateTransactionHistory st walletAddress events) zeroAddress
      (by rw [psGet_update_ne st walletAddress zeroAddress events (Ne.symm hW)]; exact hzero)
  have hz : toLowerStr zeroAddress = zeroAddress := by decide
  rw [hz, if_neg hbl] at hfb
  simp only [calculateWalletScoreNoModel, extractFeaturesFromEvent,
    getMLPredictionNoModel, hfb, assembleCalculateResult, assembleFallbackResult]
  norm_num [round2, round_eq, BLACKLIST_PENALTY]
  split_ifs with hmem <;> norm_num

/-- Witness for `calculateWalletScore_noModel_constant`: a non-blacklisted
wallet with one buffered event still scores exactly 50. -/
theorem calculateWalletScore_noModel_constant_witness :
    (calculateWalletScoreNoModel mathStub [] 0 0 []
        "0xaaaaaaaaaaaaaaaaaaaaaaaaaaaaaaaaaaaaaaaa" [mkEvent 0]).1.reputationScore
      = 50 := by
  have h := calculateWalletScore_noModel_constant mathStub [] 0 0 []
      "0xaaaaaaaaaaaaaaaaaaaaaaaaaaaaaaaaaaaaaaaa" [mkEvent 0]
      (by decide) rfl (by simp)
  simpa using h

/-! ## Claim C6: feeding the same event sequence twice -/

/-- The comparator `(a, b) => b.timestamp - a.timestamp` as a relation. -/
def tsGE (a b : EventQ) : Prop := b.timestamp ≤ a.timestamp

instance : DecidableRel tsGE := fun a b =>
  inferInstanceAs (Decidable (b.timestamp ≤ a.timestamp))

instance : IsTotal EventQ tsGE := ⟨fun a b => le_total b.timestamp a.timestamp⟩

instance : IsTrans EventQ tsGE := ⟨fun _ _ _ hab hbc => le_trans hbc hab⟩

theorem insertDesc_eq_orderedInsert (e : EventQ) (l : List EventQ) :
    insertDesc e l = List.orderedInsert tsGE e l := by
  induction l with
  | nil => rfl
  | cons x xs ih => simp [insertDesc, List.orderedInsert, tsGE, ih]

theorem sortByTimestampDesc_eq_insertionSort (l : List EventQ) :
    sortByTimestampDesc l = List.insertionSort tsGE l := by
  induction l with
  | nil => rfl
  | cons x xs ih =>
      simp [sortByTimestampDesc, List.insertionSort, insertDesc_eq_orderedInsert, ih]

/-- The normal form a wallet's stored history always has: sorted
newest-first and cut to `MAX_HISTORY`. -/
def normHist (l : List EventQ) : List EventQ :=
  (sortByTimestampDesc l).take MAX_HISTORY

theorem sorted_normHist (l : List EventQ) : List.Sorted tsGE (normHist l) := by
  rw [normHist, sortByTimestampDesc_eq_insertionSort]
  exact List.Pairwise.sublist (List.take_sublist _ _) (List.sorted_insertionSort tsGE l)

theorem normHist_idem (l : List EventQ) : normHist (normHist l) = normHist l := by
  have hs : sortByTimestampDesc (normHist l) = normHist l := by
    rw [sortByTimestampDesc_eq_insertionSort]
    exact List.Sorted.insertionSort_eq (sorted_normHist l)
  rw [normHist, hs, normHist, List.take_take]
  simp

/-- `extractFeaturesFromEvent` with no new events, in normal-form terms. -/
theorem extract_nil (m : JSMath) (now : ℚ) (st : ProcState) (w : String) :
    extractFeaturesFromEvent m now st w []
      = (featuresOfHistory m now (normHist (psGet st w)),
         psSet st w (normHist (psGet st w))) := by
  simp [extractFeaturesFromEvent, updateTransactionHistory, normHist, psGet_psSet_eq]

/-- The prediction `getMLPrediction` builds from a fallback result. -/
def predOfFallback (r : ScoringResultQ) : ModelPredictionQ :=
  { score := r.reputationScore
    probabilities := [1 - r.reputationScore / 100, r.reputationScore / 100] }

theorem getMLPredictionNoModel_eq (m : JSMath) (bl : List String) (now ts : ℚ)
    (st : ProcState) :
    getMLPredictionNoModel m bl now ts st
      = (predOfFallback (calculateFallbackScore m bl now ts st zeroAddress []).1,
         (calculateFallbackScore m bl now ts st zeroAddress []).2) := rfl

theorem calculateWalletScoreNoModel_eq (m : JSMath) (bl : List String) (now ts : ℚ)
    (st : ProcState) (w : String) (E : List EventQ) :
    calculateWalletScoreNoModel m bl now ts st w E
      = (assembleCalculateResult bl w (extractFeaturesFromEvent m now st w E).1 ts E.length
          (getMLPredictionNoModel m bl now ts (extractFeaturesFromEvent m now st w E).2).1,
         (getMLPredictionNoModel m bl now ts (extractFeaturesFromEvent m now st w E).2).2) := rfl

theorem calculateFallbackScore_nil_state (m : JSMath) (bl : List String) (now ts : ℚ)
    (st : ProcState) (w : String) :
    (calculateFallbackScore m bl now ts st w []).2 = psSet st w (normHist (psGet st w)) := by
  have h : (calculateFallbackScore m bl now ts st w []).2
      = (extractFeaturesFromEvent m now st w []).2 := rfl
  rw [h, extract_nil]

/-- The result (first component) of a no-events fallback run depends on the
processor state only through the normal form of the scored wallet's
history. -/
theorem calculateFallbackScore_nil_congr (m : JSMath) (bl : List String) (now ts : ℚ)
    (st st' : ProcState) (w : String)
    (h : normHist (psGet st w) = normHist (psGet st' w)) :
    (calculateFallbackScore m bl now ts st w []).1
      = (calculateFallbackScore m bl now ts st' w []).1 := by
  simp only [calculateFallbackScore, extract_nil, h]

/-- **C6** (amended).  Rescoring with an *empty* event list is stable: the
two runs return identical `ScoringResult`s (the embedding's timestamp
parameter aside, nothing differs).  For a nonempty event list the second run
is not the same computation — each call appends the events to the extractor's
per-wallet history, so the second run scores the doubled history (see the
counterexample). -/
theorem forceRescore_nil_stable (m : JSMath) (blacklist : List String)
    (now tsSec : ℚ) (st : ProcState) (walletAddress : String) :
    (calculateWalletScoreNoModel m blacklist now tsSec
        (calculateWalletScoreNoModel m blacklist now tsSec st walletAddress []).2
        walletAddress []).1
      = (calculateWalletScoreNoModel m blacklist now tsSec st walletAddress []).1 := by
  simp only [calculateWalletScoreNoModel_eq, extract_nil, getMLPredictionNoModel_eq,
    calculateFallbackScore_nil_state]
  by_cases hwz : walletAddress = zeroAddress
  · subst hwz
    simp only [psGet_psSet_eq, normHist_idem]
    refine congrArg _ (congrArg predOfFallback ?_)
    exact calculateFallbackScore_nil_congr _ _ _ _ _ _ _ (by simp only [psGet_psSet_eq])
  · have hzw : zeroAddress ≠ walletAddress := fun h => hwz h.symm
    -- names: A = psSet st w n₁, B = psSet A zero n_z
    set n₁ := normHist (psGet st walletAddress) with hn₁
    set A := psSet st walletAddress n₁ with hA
    set nz := normHist (psGet A zeroAddress) with hnz
    set B := psSet A zeroAddress nz with hB
    have hBw : psGet B walletAddress = n₁ := by
      rw [hB, psGet_psSet_ne _ _ _ _ hwz, hA, psGet_psSet_eq]
    have hBn : normHist (psGet B walletAddress) = n₁ := by
      rw [hBw, hn₁, normHist_idem]
    rw [hBn]
    refine congrArg₂ _ rfl (congrArg _ ?_)
    refine calculateFallbackScore_nil_congr _ _ _ _ _ _ _ ?_
    rw [psGet_psSet_ne _ _ _ _ hzw, hB, psGet_psSet_eq, hnz, normHist_idem]

/-- One 'failed' event involving only the scored wallet, at second
`999000 + i`. -/
def mkFailEvent (i : Nat) : EventQ :=
  { type := "transaction"
    hash := "0xhash"
    fromAddr := "0xabc"
    toAddr := some "0xabc"
    value := 0
    blockNumber := i
    timestamp := (999000 + i : ℚ)
    gasPrice := 0
    gasUsed := 0
    status := "failed"
    input := none
    contractAddress := none
    nonce := i }

/-- Six failed transactions, most recent last. -/
def sixFailedEvents : List EventQ := (List.range 6).map mkFailEvent

/-- The two successive scoring runs of the counterexample (model not loaded,
empty blacklist, fresh extractor state, `now` = 1 000 000 s). -/
def c6run1 : ScoringResultQ × ProcState :=
  calculateWalletScoreNoModel mathStub [] 1000000 1000000 [] "0xabc" sixFailedEvents

def c6run2 : ScoringResultQ × ProcState :=
  calculateWalletScoreNoModel mathStub [] 1000000 1000000 c6run1.2 "0xabc" sixFailedEvents

set_option maxRecDepth 100000 in
/-- **C6** is false on the code: feeding the same six failed events twice in
succession does not reproduce the first result.  `extractFeaturesFromEvent`
appends the events to its per-wallet history on every call, so the second
run sees 12 failed transactions instead of 6, and its flag list gains
`high_failure_rate` — the feature vector and the flags differ between the
two runs. -/
theorem forceRescore_double_feed_counterexample :
    c6run1.1.features.failedTransactions = 6
    ∧ c6run2.1.features.failedTransactions = 12
    ∧ c6run1.1.flags = ["high_frequency", "new_account"]
    ∧ c6run2.1.flags = ["high_failure_rate", "high_frequency", "new_account"]
    ∧ c6run1.1.flags ≠ c6run2.1.flags
    ∧ c6run1.1.features ≠ c6run2.1.features := by
  have h6 : c6run1.1.features.failedTransactions = 6 := by with_unfolding_all decide
  have h12 : c6run2.1.features.failedTransactions = 12 := by with_unfolding_all decide
  have hf1 : c6run1.1.flags = ["high_frequency", "new_account"] := by
    with_unfolding_all decide
  have hf2 : c6run2.1.flags = ["high_failure_rate", "high_frequency", "new_account"] := by
    with_unfolding_all decide
  refine ⟨h6, h12, hf1, hf2, ?_, ?_⟩
  · rw [hf1, hf2]; decide
  · intro h
    have := congrArg FeatureVectorQ.failedTransactions h
    rw [h6, h12] at this
    norm_num at this

/-! ## Claim C3: risk-level thresholds -/

/-- **C3** is false on the code as stated over *all* scoring paths: the
fallback path derives `risk_level` from the unrounded clamped score but
publishes `parseFloat(score.toFixed(2))`.  At internal score 69.996 the
published `reputation_score` is exactly 70 while `risk_level` is MEDIUM,
violating both `LOW ⇔ s ≥ 70` and `MEDIUM ⇔ 50 ≤ s < 70`. -/
theorem fallback_rounding_counterexample :
    (assembleFallbackResult [] "0xwallet" getDefaultFeatures 0 1 (69996 / 1000)
        (3 / 10)).reputationScore = 70
    ∧ (assembleFallbackResult [] "0xwallet" getDefaultFeatures 0 1 (69996 / 1000)
        (3 / 10)).riskLevel = RiskLevel.medium := by
  constructor
  · show round2 (69996 / 1000) = 70
    norm_num [round2, round_eq]
  · show determineRiskLevel (69996 / 1000) = RiskLevel.medium
    norm_num [determineRiskLevel]

/-- **C3** (amended).  `determineRiskLevel` satisfies the four equivalences
(in particular exact scores 70 / 50 / 30 resolve to LOW / MEDIUM / HIGH); the
`calculateWalletScore` path and the batch error path publish the very score
they classify, so their results satisfy the equivalences; the fallback path
classifies the unrounded clamped score, and its published (two-decimal
rounded) `reputation_score` satisfies the equivalences whenever the rounding
is lossless — but not in general (see the counterexample). -/
theorem riskLevel_threshold_invariant (s : ℚ) (m : JSMath) (blacklist : List String)
    (walletAddress : String) (features : FeatureVectorQ) (now tsSec conf : ℚ)
    (st : ProcState) (eventCount : Nat) (events : List EventQ)
    (mlPrediction : ModelPredictionQ) :
    ((determineRiskLevel s = RiskLevel.low ↔ 70 ≤ s)
      ∧ (determineRiskLevel s = RiskLevel.medium ↔ 50 ≤ s ∧ s < 70)
      ∧ (determineRiskLevel s = RiskLevel.high ↔ 30 ≤ s ∧ s < 50)
      ∧ (determineRiskLevel s = RiskLevel.critical ↔ s < 30))
    ∧ (assembleCalculateResult blacklist walletAddress features tsSec eventCount
          mlPrediction).riskLevel
        = determineRiskLevel (assembleCalculateResult blacklist walletAddress features
            tsSec eventCount mlPrediction).reputationScore
    ∧ ((batchErrorResult m now tsSec st walletAddress events).1.reputationScore = 50
      ∧ (batchErrorResult m now tsSec st walletAddress events).1.riskLevel
          = RiskLevel.medium)
    ∧ (assembleFallbackResult blacklist walletAddress features tsSec eventCount s
          conf).riskLevel = determineRiskLevel s
    ∧ (round2 s = s →
        (assembleFallbackResult blacklist walletAddress features tsSec eventCount s
            conf).riskLevel
          = determineRiskLevel (assembleFallbackResult blacklist walletAddress features
              tsSec eventCount s conf).reputationScore) := by
  have hiff : (determineRiskLevel s = RiskLevel.low ↔ 70 ≤ s)
      ∧ (determineRiskLevel s = RiskLevel.medium ↔ 50 ≤ s ∧ s < 70)
      ∧ (determineRiskLevel s = RiskLevel.high ↔ 30 ≤ s ∧ s < 50)
      ∧ (determineRiskLevel s = RiskLevel.critical ↔ s < 30) := by
    unfold determineRiskLevel
    split_ifs with h1 h2 h3 <;> refine ⟨?_, ?_, ?_, ?_⟩ <;>
      simp_all <;> intros <;> linarith
  refine ⟨hiff, rfl, ⟨rfl, rfl⟩, rfl, ?_⟩
  intro hround
  show determineRiskLevel s = determineRiskLevel (round2 s)
  rw [hround]

/-- Witness for `riskLevel_threshold_invariant` at concrete inputs,
discharging the lossless-rounding hypothesis at score 60. -/
theorem riskLevel_threshold_invariant_witness :
    (assembleFallbackResult [] "0xwallet" getDefaultFeatures 0 0 60 0).riskLevel
      = determineRiskLevel (assembleFallbackResult [] "0xwallet" getDefaultFeatures
          0 0 60 0).reputationScore :=
  (riskLevel_threshold_invariant 60 ⟨fun _ => 0, fun _ => 0, fun _ => 0⟩ [] "0xwallet"
      getDefaultFeatures 0 0 0 [] 0 [] ⟨0, []⟩).2.2.2.2
    (by norm_num [round2, round_eq])

/-! ## Claim C10: `flagWallet` is total and returns structured results -/

/-- **C10.** For every input and environment, `contractService.flagWallet`
returns a structured result (its embedding is a total function): on success
a `{success: true, transactionHash, receipt}` record with no error; on every
failure a `{success: false, error}` record; and the contract call is
attempted exactly when validation passes, the contract is initialized, and
the risk-level string maps to a contract enum value — in particular no
transaction is submitted on a validation failure. -/
theorem flagWallet_structured_results (env : ContractEnv)
    (walletAddress riskLevel : String) (reputationScore : ℚ) (reason : String) :
    (((flagWallet env walletAddress riskLevel reputationScore reason).1.success = true
        ∧ (flagWallet env walletAddress riskLevel reputationScore reason).1.transactionHash.isSome = true
        ∧ (flagWallet env walletAddress riskLevel reputationScore reason).1.receipt.isSome = true
        ∧ (flagWallet env walletAddress riskLevel reputationScore reason).1.error = none)
      ∨ ((flagWallet env walletAddress riskLevel reputationScore reason).1.success = false
        ∧ (flagWallet env walletAddress riskLevel reputationScore reason).1.error.isSome = true))
    ∧ (flagWallet env walletAddress riskLevel reputationScore reason).2 =
        ((validateFlaggingInputs walletAddress riskLevel reputationScore reason).isNone
          && env.contractInitialized
          && (riskLevelToContractValue riskLevel).isSome) := by
  unfold flagWallet
  cases hv : validateFlaggingInputs walletAddress riskLevel reputationScore reason with
  | some msg => simp
  | none =>
      cases hinit : env.contractInitialized with
      | false => simp
      | true =>
          cases hrl : riskLevelToContractValue riskLevel with
          | none => simp
          | some k =>
              cases hout : env.outcome with
              | throws msg => simp
              | mined h rs =>
                  rcases rs with _ | (_ | (_ | n)) <;> simp

/-! ## Claim C8: the rate-limit window -/

/-- Inside an open window, each check increments the counter by one and
accepts iff the counter stays at most 100. -/
theorem rateSim_in_window : ∀ (ts : List Nat) (c R : Nat), (∀ t ∈ ts, t < R) →
    (rateSim (some ⟨c, R⟩) ts).1
      = (List.range ts.length).map (fun i => decide (c + i + 1 ≤ 100))
    ∧ (rateSim (some ⟨c, R⟩) ts).2 = some ⟨c + ts.length, R⟩ := by
  intro ts
  induction ts with
  | nil => intro c R _; simp [rateSim]
  | cons t rest ih =>
      intro c R h
      have ht : ¬ R ≤ t := not_le.mpr (h t (by simp))
      have hrest : ∀ t' ∈ rest, t' < R := fun t' ht' => h t' (by simp [ht'])
      obtain ⟨ih1, ih2⟩ := ih (c + 1) R hrest
      simp only [rateSim, checkRateLimit, if_neg ht]
      refine ⟨?_, ?_⟩
      · rw [ih1, List.length_cons, List.range_succ_eq_map, List.map_cons, List.map_map]
        refine congrArg₂ _ (by norm_num [RATE_LIMIT_maxMessages]) ?_
        refine List.map_congr_left fun i _ => ?_
        simp [Function.comp]
        omega
      · rw [ih2]
        refine congrArg some (congrArg₂ _ ?_ rfl)
        simp [List.length_cons]
        omega

/-- **C8.** Among 101 rate-limited client messages arriving within one
60-second window on a fresh connection, the first 100 are accepted (so the
100th is processed: with the counter at 99 `handleSubscribe` does not emit a
rate-limit error) while the 101st is rejected: `handleSubscribe` with the
counter at 100 emits the recoverable `RATE_LIMIT_EXCEEDED` error, leaves the
subscription set unchanged, and drops the message. -/
theorem rateLimit_100th_accepted_101st_rejected (t0 : Nat) (ts : List Nat)
    (hlen : ts.length = 100) (hw : ∀ t ∈ ts, t < t0 + 60000) :
    (rateSim none (t0 :: ts)).1 = List.replicate 100 true ++ [false]
    ∧ (rateSim none (t0 :: ts.take 99)).2 = some ⟨100, t0 + 60000⟩
    ∧ (∀ now fresh conn d, now < t0 + 60000 →
        handleSubscribe now fresh conn (some ⟨100, t0 + 60000⟩) d
          = ⟨{ conn with lastActivity := now }, ⟨101, t0 + 60000⟩,
              SubOutcome.err "RATE_LIMIT_EXCEEDED" "Too many messages, please slow down"
                true⟩)
    ∧ (∀ now fresh conn d, now < t0 + 60000 →
        (handleSubscribe now fresh conn (some ⟨99, t0 + 60000⟩) d).outcome
          ≠ SubOutcome.err "RATE_LIMIT_EXCEEDED" "Too many messages, please slow down"
              true) := by
  refine ⟨?_, ?_, ?_, ?_⟩
  · have h1 := (rateSim_in_window ts 1 (t0 + 60000) hw).1
    simp only [rateSim, checkRateLimit]
    norm_num [RATE_LIMIT_windowMs, RATE_LIMIT_maxMessages]
    rw [h1, hlen]
    decide
  · have h2 := (rateSim_in_window (ts.take 99) 1 (t0 + 60000)
      (fun t ht => hw t (List.mem_of_mem_take ht))).2
    simp only [rateSim, checkRateLimit]
    norm_num [RATE_LIMIT_windowMs, RATE_LIMIT_maxMessages]
    rw [h2]
    simp [List.length_take, hlen]
  · intro now fresh conn d hnow
    have hr : ¬ (t0 + 60000) ≤ now := not_le.mpr hnow
    simp [handleSubscribe, checkRateLimit, if_neg hr, RATE_LIMIT_maxMessages]
  · intro now fresh conn d hnow
    have hr : ¬ (t0 + 60000) ≤ now := not_le.mpr hnow
    simp only [handleSubscribe, checkRateLimit, if_neg hr]
    norm_num [RATE_LIMIT_maxMessages]
    split
    · simp
    · split <;> simp

/-- Witness for `rateLimit_100th_accepted_101st_rejected`: 101 messages all
arriving at the window's opening instant. -/
theorem rateLimit_100th_accepted_101st_rejected_witness :
    (rateSim none (0 :: List.replicate 100 0)).1 = List.replicate 100 true ++ [false] :=
  (rateLimit_100th_accepted_101st_rejected 0 (List.replicate 100 0) (by simp)
    (fun t ht => by rw [List.eq_of_mem_replicate ht]; omega)).1

/-! ## Claim C9: monitors in the map are always active -/

theorem mmLookup_mem : ∀ (st : MonMap) (a : String) (m : WalletMonitorQ),
    mmLookup st a = some m → (a, m) ∈ st := by
  intro st
  induction st with
  | nil => intro a m h; simp [mmLookup] at h
  | cons p rest ih =>
      intro a m h
      obtain ⟨k, x⟩ := p
      by_cases hak : a = k
      · subst hak
        simp [mmLookup] at h
        simp [h]
      · simp only [mmLookup, if_neg hak] at h
        exact List.mem_cons_of_mem _ (ih a m h)

theorem mem_mmSet : ∀ (st : MonMap) (w : String) (v : WalletMonitorQ)
    (p : String × WalletMonitorQ), p ∈ mmSet st w v → p ∈ st ∨ p = (w, v) := by
  intro st
  induction st with
  | nil => intro w v p hp; simp [mmSet] at hp; simp [hp]
  | cons q rest ih =>
      intro w v p hp
      obtain ⟨k, x⟩ := q
      by_cases hk : k = w
      · subst hk
        simp only [mmSet, if_pos rfl] at hp
        rcases List.mem_cons.mp hp with hp | hp
        · exact Or.inr hp
        · exact Or.inl (List.mem_cons_of_mem _ hp)
      · simp only [mmSet, if_neg hk] at hp
        rcases List.mem_cons.mp hp with hp | hp
        · exact Or.inl (by simp [hp])
        · rcases ih w v p hp with hin | heq
          · exact Or.inl (List.mem_cons_of_mem _ hin)
          · exact Or.inr heq

/-- The invariant: every monitor stored in `monitoredWallets` is active. -/
def MonInv (st : MonMap) : Prop := ∀ p ∈ st, (p.2).isActive = true

theorem monInv_step (st : MonMap) (op : CoordOp) (h : MonInv st) :
    MonInv (applyCoordOp st op) := by
  cases op with
  | startMonitoring w now cfg =>
      simp only [applyCoordOp]
      split
      · exact h
      · split
        · exact h
        · intro p hp
          rcases mem_mmSet _ _ _ _ hp with hin | heq
          · exact h p hin
          · rw [heq]
  | stopMonitoring w =>
      simp only [applyCoordOp]
      split
      · exact h
      · split
        · exact h
        · intro p hp
          exact h p (List.mem_of_mem_filter hp)
  | walletEvent w now sc =>
      simp only [applyCoordOp]
      split
      · exact h
      · rename_i monitor hl
        split
        · intro p hp
          rcases mem_mmSet _ _ _ _ hp with hin | heq
          · exact h p hin
          · rw [heq]
            show monitor.isActive = true
            exact h _ (mmLookup_mem st w monitor hl)
        · exact h

theorem monInv_run (ops : List CoordOp) : ∀ st, MonInv st → MonInv (ops.foldl applyCoordOp st) := by
  induction ops with
  | nil => intro st h; exact h
  | cons op rest ih => intro st h; exact ih _ (monInv_step st op h)

/-- **C9.** In every state the coordinator can reach from startup, every
monitor present in `monitoredWallets` has `isActive = true`: monitors are
created with `isActive := true` and no operation ever writes `false` (removal
deletes the entry), so `handleWalletEvent`'s present-but-inactive branch is
unreachable. -/
theorem monitoredWallets_always_active (ops : List CoordOp) (a : String)
    (mon : WalletMonitorQ) (h : mmLookup (runCoordOps ops) a = some mon) :
    mon.isActive = true := by
  have hinv : MonInv (runCoordOps ops) :=
    monInv_run ops [] (by intro p hp; simp at hp)
  exact hinv _ (mmLookup_mem _ _ _ h)

def cfg0 : WalletMonitoringConfig :=
  { includeTransactions := true
    includeTokenTransfers := true
    includeInternalTransactions := false
    fromBlock := none }

/-- An all-digit address (its EIP-55 checksummed form is itself). -/
def digitAddr : String := "0x1111111111111111111111111111111111111111"

set_option maxRecDepth 100000 in
/-- Witness for `monitoredWallets_always_active`: the monitor stored by one
`startMonitoringWallet` call. -/
theorem monitoredWallets_always_active_witness :
    ({ walletAddress := digitAddr, startedAt := 5, lastActivity := 5, eventCount := 0,
       lastScore := none, isActive := true, config := cfg0 } : WalletMonitorQ).isActive
      = true :=
  monitoredWallets_always_active [CoordOp.startMonitoring digitAddr 5 cfg0] digitAddr
    { walletAddress := digitAddr, startedAt := 5, lastActivity := 5, eventCount := 0,
      lastScore := none, isActive := true, config := cfg0 } rfl

/-! ## Claim C1: subscription storage vs. broadcast routing -/

/-- The EIP-55 example address, in all-lowercase form (as a client would
submit it) and in the checksummed form `ethers.getAddress` returns. -/
def subWallet : String := "0x5aaeb6053f3e94c9b9a09f33669435e7ef1beaed"

def subWalletChecksummed : String := "0x5aAeb6053F3E94C9b9A09f33669435E7Ef1BeAed"

/-- A freshly accepted connection with no subscriptions. -/
def freshConn : Conn :=
  { id := "ws_1", subscribedWallets := [], connectedAt := 0, lastActivity := 0,
    sessionId := none }

/-- The connection state after one valid subscribe for `subWallet`. -/
def c1sub : SubResult :=
  handleSubscribe 1 "session_1" freshConn none ⟨some subWallet, none⟩

set_option maxRecDepth 1000000 in
/-- **C1** is false on the code: a valid subscribe stores the EIP-55
*checksummed* form (mixed case), not the normalized lowercase form, while
every broadcast looks up `walletAddress.toLowerCase()` — so
`broadcast_score_update(W, …)` delivers to *no* connection (in particular
not to the subscriber), whichever case variant of `W` the caller uses. -/
theorem subscribe_broadcast_mismatch :
    c1sub.outcome = SubOutcome.ack subWalletChecksummed "session_1"
    ∧ c1sub.conn.subscribedWallets = [subWalletChecksummed]
    ∧ subWalletChecksummed ≠ toLowerStr subWalletChecksummed
    ∧ toLowerStr subWallet = subWallet
    ∧ deliveredTo [c1sub.conn] subWallet = []
    ∧ deliveredTo [c1sub.conn] subWalletChecksummed = [] := by
  with_unfolding_all decide

/-! ## Claim C7: "already flagged" contract rejections -/

/-- The revert reason of `WalletFlagger.sol` for duplicate flags, as it
reaches the client inside the thrown ethers error. -/
def alreadyFlaggedMsg : String :=
  "execution reverted: WalletFlagger: wallet already flagged"

def alreadyFlaggedEnv : ContractEnv :=
  { contractInitialized := true, outcome := TxOutcome.throws alreadyFlaggedMsg }

/-- **C7** is false on the code: when the contract rejects the call because
the wallet is already flagged, `flagWallet` returns a *failure* result
`{success: false, error}` — there is no already-flagged special case. -/
theorem flagWallet_already_flagged_counterexample :
    (flagWallet alreadyFlaggedEnv subWallet "critical" 25
        "Critical risk score detected").1.success = false
    ∧ (flagWallet alreadyFlaggedEnv subWallet "critical" 25
        "Critical risk score detected").1.error = some alreadyFlaggedMsg := by
  with_unfolding_all decide

/-- **C7** (amended).  A contract rejection of a valid flagging call —
including the duplicate-flag revert — is caught and surfaced as a structured
non-thrown failure result carrying the revert message; it is not treated as
success. -/
theorem flagWallet_rejection_returns_failure (msg walletAddress riskLevel : String)
    (score : ℚ) (reason : String)
    (hv : validateFlaggingInputs walletAddress riskLevel score reason = none)
    (hrl : (riskLevelToContractValue riskLevel).isSome = true) :
    flagWallet ⟨true, TxOutcome.throws msg⟩ walletAddress riskLevel score reason
      = (⟨false, none, none, some msg⟩, true) := by
  simp only [flagWallet, hv]
  cases hr : riskLevelToContractValue riskLevel with
  | none => rw [hr] at hrl; simp at hrl
  | some k => simp

/-- Witness for `flagWallet_rejection_returns_failure` at the concrete
duplicate-flag rejection. -/
theorem flagWallet_rejection_returns_failure_witness :
    flagWallet ⟨true, TxOutcome.throws alreadyFlaggedMsg⟩ subWallet "critical" 25
        "Critical risk score detected"
      = (⟨false, none, none, some alreadyFlaggedMsg⟩, true) :=
  flagWallet_rejection_returns_failure alreadyFlaggedMsg subWallet "critical" 25
    "Critical risk score detected" (by with_unfolding_all decide) (by decide)

end Soklin
